import Mathlib

/-!
# Verification of the Telegram group-creator system

Shallow embedding of the three components of the repository:

* the client-side flow controller (`GroupCreatorForm`, both the Node.js-backend
  variant and the Supabase variant: their local validation and number-parsing
  logic is identical),
* the Node.js Express gateway (`/api/send-code`, `/api/verify-code`,
  `/api/create-group` handlers with the in-memory `activeClients` registry and
  its 10-minute eviction timer),
* the Supabase edge function (`create-telegram-group/index.ts` with its
  `send_code` / `verify_code` / `create_group` actions and the credentials
  check).

Calls into the wrapped GramJS library are modelled by an oracle (`TgLib`)
giving the outcome of each library operation; JavaScript exceptions are
modelled by `JsResult`.
-/

namespace GroupGenie

/-- Outcome of an awaited JavaScript call: either a value or a thrown
exception carrying its `error.message` (a missing/`undefined` message is
modelled as the empty string, which is falsy in JavaScript). -/
inductive JsResult (α : Type) where
  | ok (val : α)
  | exn (msg : String)
deriving DecidableEq, Repr

/-- A Telegram user as returned by `contacts.ImportContacts`: the fields the
handlers read. JavaScript truthiness of `user.id` / `user.accessHash`
(BigInt `0` or `undefined` is falsy) is modelled as the value being `0`. -/
structure TUser where
  id : Nat
  accessHash : Nat
deriving DecidableEq, Repr

/-- An `Api.InputUser` built by the gateways from a resolved Telegram user. -/
structure InputUser where
  userId : Nat
  accessHash : Nat
deriving DecidableEq, Repr

/-- One call into the wrapped GramJS library, recorded for the library-call
trace of a request handler. -/
inductive LibCall where
  | connect
  | sendCode (phone : String)
  | signIn (phone : String)
  | importContacts (phone : String)
  | createChat (users : List InputUser) (title : String)
  | disconnect
deriving DecidableEq, Repr

/-- Oracle describing the behaviour of the wrapped GramJS library during one
request: the result of each library operation the handlers may invoke. -/
structure TgLib where
  connectResult : JsResult Unit
  sendCodeResult : String → JsResult String
  signInResult : String → String → String → JsResult Unit
  sessionSave : String
  importResult : String → JsResult (List TUser)
  createChatResult : List InputUser → String → JsResult Unit

/-- Process configuration: the `TELEGRAM_API_ID` and `TELEGRAM_API_HASH`
environment variables (`none` = variable absent). -/
structure Env where
  telegramApiId : Option String
  telegramApiHash : Option String
deriving DecidableEq, Repr

/-- A JSON response body (plus HTTP status) as produced by either gateway.
Optional JSON keys that a given response does not include are `none`. -/
structure ApiResponse where
  status : Nat
  success : Bool
  message : Option String := none
  error : Option String := none
  phoneCodeHash : Option String := none
  clientId : Option String := none
  sessionString : Option String := none
  requiresPassword : Option Bool := none
  membersAdded : Option Nat := none
  totalRequested : Option Nat := none
  failedNumbers : Option (List String) := none
deriving DecidableEq, Repr

/-! ## Shared string helpers -/

/-- `phone.replace(/\s/g, '')` from the Node.js handlers: remove every
whitespace character. -/
def cleanPhone (s : String) : String :=
  String.mk (s.data.filter (fun c => !c.isWhitespace))

/-- Whether the character list `sub` occurs as a prefix of `l`. -/
def charsStartWith : List Char → List Char → Bool
  | [], _ => true
  | _ :: _, [] => false
  | a :: as, b :: bs => a == b && charsStartWith as bs

/-- Whether the character list `sub` occurs contiguously inside `l`. -/
def charsContain (sub : List Char) : List Char → Bool
  | [] => sub.isEmpty
  | b :: bs => charsStartWith sub (b :: bs) || charsContain sub bs

/-- JavaScript `s.includes(sub)`. -/
def containsSubstr (s sub : String) : Bool :=
  charsContain sub.data s.data

/-- JavaScript `parseInt` restricted to base-10 input as used for
`TELEGRAM_API_ID`: skip leading whitespace, optional sign, then the maximal
run of decimal digits; `none` models `NaN` (no digits). -/
def parseIntJS (s : String) : Option Int :=
  let cs := s.data.dropWhile Char.isWhitespace
  let signed : Int × List Char :=
    match cs with
    | '-' :: r => (-1, r)
    | '+' :: r => (1, r)
    | _ => (1, cs)
  let ds := signed.2.takeWhile Char.isDigit
  if ds.isEmpty then none
  else some (signed.1 * (ds.foldl (fun acc c => acc * 10 + (c.toNat - 48)) 0 : Nat))

/-! ## Client Flow Controller (`GroupCreatorForm`)

The two form variants (Node.js-backend variant and Supabase variant) contain
the same member-blob parsing and the same local validation in
`handleCreateGroup`; they differ only in which backend the resulting network
request is sent to, so one embedding covers both. -/

/-- Split a character list at every character satisfying `p` (keeping empty
segments, like JavaScript `split` on a single-character separator). -/
def splitChars (p : Char → Bool) : List Char → List (List Char)
  | [] => [[]]
  | c :: cs =>
    let r := splitChars p cs
    if p c then [] :: r
    else (c :: r.headD []) :: r.tail

/-- JavaScript `String.prototype.trim` on a character list: drop leading and
trailing whitespace. -/
def trimChars (l : List Char) : List Char :=
  ((l.dropWhile Char.isWhitespace).reverse.dropWhile Char.isWhitespace).reverse

/-- JavaScript `s.trim()`. -/
def jsTrim (s : String) : String := String.mk (trimChars s.data)

/-- The separator class `[\n,]` of the client-side parser. -/
def isSepChar (c : Char) : Bool := c == '\n' || c == ','

/-- The client-side number parser:
`mobileNumbers.split(/[\n,]+/).map(n => n.trim()).filter(n => n.length > 0)`.
Splitting at each separator character and then dropping empty trimmed tokens
yields the same list as the regex `[\n,]+` split (which merely collapses the
empty segments this filter removes) followed by the same trim/filter. -/
def splitNumbers (blob : String) : List String :=
  ((((splitChars isSepChar blob.data).map trimChars).filter
    (fun t => !t.isEmpty)).map String.mk)

/-- Result of submitting the group-creation step: either a local rejection
(toast shown, no network call issued) or a network request carrying the group
name and the parsed number list. -/
inductive SubmitAction where
  | rejected
  | request (groupName : String) (numbers : List String)
deriving DecidableEq, Repr

/-- The local validation of `handleCreateGroup`: empty (trimmed) group name,
empty (trimmed) member blob, or an empty parsed number list each abort before
the `fetch`/`invoke` call. -/
def handleCreateGroup (groupName mobileNumbers : String) : SubmitAction :=
  if jsTrim groupName = "" then .rejected
  else if jsTrim mobileNumbers = "" then .rejected
  else if splitNumbers mobileNumbers = [] then .rejected
  else .request groupName (splitNumbers mobileNumbers)

/-! ## Node.js gateway: `activeClients` registry

`const activeClients = new Map()` mapping an opaque `clientId` to the stored
unauthenticated client connection together with the cleaned phone number; the
creation timestamp determines when the per-entry `setTimeout` eviction
callback becomes due. A JavaScript `Map` is modelled as a function from keys
to optional entries. -/

/-- One entry of `activeClients`: the stored client connection (identified by
an abstract reference so that reuse of the same connection object can be
stated), the cleaned phone number, and the creation time in milliseconds. -/
structure PendingClient where
  clientRef : Nat
  phone : String
  createdAt : Nat
deriving DecidableEq, Repr

/-- The `activeClients` map. -/
def Registry : Type := String → Option PendingClient

/-- The empty `activeClients` map. -/
def emptyRegistry : Registry := fun _ => none

/-- `activeClients.set(clientId, entry)`. -/
def insertEntry (st : Registry) (cid : String) (e : PendingClient) : Registry :=
  fun c => if c = cid then some e else st c

/-- `activeClients.delete(clientId)`. -/
def deleteEntry (st : Registry) (cid : String) : Registry :=
  fun c => if c = cid then none else st c

/-- The deletion performed on `verify-code` success:
`if (clientId && activeClients.has(clientId)) activeClients.delete(clientId)`
(deleting an absent or unsupplied key leaves the map unchanged). -/
def deleteIfPresent (st : Registry) : Option String → Registry
  | some cid => deleteEntry st cid
  | none => st

/-- The 10-minute eviction delay, `10 * 60 * 1000` milliseconds. -/
def evictionDelayMs : Nat := 10 * 60 * 1000

/-- Whether the per-entry `setTimeout` eviction callback for an entry is due
at time `now`. -/
def timerDue (now : Nat) (e : PendingClient) : Bool :=
  e.createdAt + evictionDelayMs ≤ now

/-- Whether the eviction callback for `cid` fires at time `now` and
force-closes the stored connection (`activeClients.get(clientId).client.disconnect()`
followed by `activeClients.delete(clientId)`). -/
def timerCloses (now : Nat) (st : Registry) (cid : String) : Bool :=
  match st cid with
  | some e => timerDue now e
  | none => false

/-- The registry as observed by a handler running at time `now`: the
JavaScript event loop has already run every due `setTimeout` eviction
callback, each of which disconnects and deletes its (still present) entry. -/
def processTimers (now : Nat) (st : Registry) : Registry :=
  fun cid =>
    match st cid with
    | some e => if timerDue now e then none else some e
    | none => none

/-! ## Node.js gateway request handlers -/

/-- Output of a Node.js handler that touches the registry. -/
structure NodeOutput where
  resp : ApiResponse
  registry : Registry
  /-- `(clientId, fireTime)` of the eviction timer scheduled by this request,
  if any. -/
  timerAt : Option (String × Nat)
  /-- Whether the handler reused a connection stored in the registry (as
  opposed to opening a fresh one or failing first). -/
  usedStored : Bool
  calls : List LibCall

/-- The `catch` block of `/api/send-code`:
`error.message || 'Failed to send verification code'` with status 500. -/
def sendCodeCatch (msg : String) : ApiResponse :=
  { status := 500, success := false,
    error := some (if msg = "" then "Failed to send verification code" else msg) }

/-- The handle generated by `/api/send-code`:
`` `${cleanPhone}_${Date.now()}` ``. -/
def freshClientId (phoneNumber : String) (now : Nat) : String :=
  cleanPhone phoneNumber ++ "_" ++ toString now

/-- The `/api/send-code` handler of the Node.js gateway. `env` is unused by
the handler body beyond being forwarded into the library client constructor:
the Node.js gateway performs no credentials check of its own. `clientRef`
identifies the freshly constructed connection object; `now` is `Date.now()`. -/
def nodeSendCode (env : Env) (lib : TgLib) (st : Registry) (now : Nat)
    (clientRef : Nat) (phoneNumber : String) : NodeOutput :=
  match lib.connectResult with
  | .exn msg => ⟨sendCodeCatch msg, st, none, false, [.connect]⟩
  | .ok _ =>
    match lib.sendCodeResult (cleanPhone phoneNumber) with
    | .exn msg =>
      ⟨sendCodeCatch msg, st, none, false,
       [.connect, .sendCode (cleanPhone phoneNumber)]⟩
    | .ok hash =>
      ⟨{ status := 200, success := true, phoneCodeHash := some hash,
         clientId := some (freshClientId phoneNumber now),
         message := some "Verification code sent to your phone" },
       insertEntry st (freshClientId phoneNumber now)
         ⟨clientRef, cleanPhone phoneNumber, now⟩,
       some (freshClientId phoneNumber now, now + evictionDelayMs),
       false,
       [.connect, .sendCode (cleanPhone phoneNumber)]⟩

/-- Request body of `/api/verify-code`. -/
structure VerifyRequest where
  phoneNumber : String
  phoneCodeHash : String
  code : String
  clientId : Option String
deriving DecidableEq, Repr

/-- The `catch` block of `/api/verify-code`: a message containing
`SESSION_PASSWORD_NEEDED` yields the flagged 400 response with
`requiresPassword: true`; every other failure yields the generic 500 response
without the flag. -/
def verifyCatch (msg : String) : ApiResponse :=
  if containsSubstr msg "SESSION_PASSWORD_NEEDED" then
    { status := 400, success := false,
      error := some "Two-factor authentication is enabled. Please disable 2FA temporarily or provide password.",
      requiresPassword := some true }
  else
    { status := 500, success := false,
      error := some (if msg = "" then "Failed to verify code" else msg) }

/-- The success response of `/api/verify-code`. -/
def verifySuccess (lib : TgLib) : ApiResponse :=
  { status := 200, success := true, sessionString := some lib.sessionSave,
    message := some "Authentication successful" }

/-- The lookup `clientId && activeClients.has(clientId)` performed by
`/api/verify-code` to find a reusable stored client. -/
def lookupHandle (st : Registry) : Option String → Option PendingClient
  | some cid => st cid
  | none => none

/-- The `/api/verify-code` handler of the Node.js gateway: reuse the stored
client when `clientId` resolves to a live registry entry, otherwise construct
and connect a fresh one; sign in; on success save the session string and
delete the registry entry (if one was supplied and present). -/
def nodeVerifyCode (env : Env) (lib : TgLib) (st : Registry)
    (req : VerifyRequest) : NodeOutput :=
  match lookupHandle st req.clientId with
  | some _ =>
    match lib.signInResult (cleanPhone req.phoneNumber) req.phoneCodeHash
        req.code with
    | .exn msg =>
      ⟨verifyCatch msg, st, none, true, [.signIn (cleanPhone req.phoneNumber)]⟩
    | .ok _ =>
      ⟨verifySuccess lib, deleteIfPresent st req.clientId, none, true,
       [.signIn (cleanPhone req.phoneNumber)]⟩
  | none =>
    match lib.connectResult with
    | .exn msg => ⟨verifyCatch msg, st, none, false, [.connect]⟩
    | .ok _ =>
      match lib.signInResult (cleanPhone req.phoneNumber) req.phoneCodeHash
          req.code with
      | .exn msg =>
        ⟨verifyCatch msg, st, none, false,
         [.connect, .signIn (cleanPhone req.phoneNumber)]⟩
      | .ok _ =>
        ⟨verifySuccess lib, deleteIfPresent st req.clientId, none, false,
         [.connect, .signIn (cleanPhone req.phoneNumber)]⟩

/-- `/api/verify-code` as dispatched by the event loop at time `now`: all due
eviction timers have fired before the handler observes the registry. -/
def nodeVerifyCodeAt (env : Env) (lib : TgLib) (now : Nat) (st : Registry)
    (req : VerifyRequest) : NodeOutput :=
  nodeVerifyCode env lib (processTimers now st) req

/-! ## Node.js gateway: `/api/create-group` -/

/-- Request body of a create-group call. `groupImageBase64` is accepted by
the HTTP surface (the Supabase request interface declares it and the client
sends it) but is never destructured by either gateway handler. -/
structure CreateGroupRequest where
  sessionString : String
  groupName : String
  mobileNumbers : List String
  groupImageBase64 : Option String
deriving DecidableEq, Repr

/-- Resolution of one cleaned phone number in the Node.js handler: the
`ImportContacts` call, per-number `try`/`catch`, and the
`user.id && user.accessHash` truthiness check; `some` is the pushed
`InputUser`, `none` means the number goes to `failedNumbers`. -/
def resolveOne (imp : String → JsResult (List TUser)) (c : String) :
    Option InputUser :=
  match imp c with
  | .exn _ => none
  | .ok [] => none
  | .ok (u :: _) =>
    if u.id ≠ 0 ∧ u.accessHash ≠ 0 then some ⟨u.id, u.accessHash⟩ else none

/-- The sequential resolution loop of the Node.js handler: returns the
`users` list and the `failedNumbers` list (of cleaned numbers), each in
input order. -/
def resolveLoop (imp : String → JsResult (List TUser)) :
    List String → List InputUser × List String
  | [] => ([], [])
  | p :: rest =>
    match resolveOne imp (cleanPhone p) with
    | some u => (u :: (resolveLoop imp rest).1, (resolveLoop imp rest).2)
    | none => ((resolveLoop imp rest).1, cleanPhone p :: (resolveLoop imp rest).2)

/-- Output of a create-group handler (neither gateway's create-group branch
touches the pending-login registry). -/
structure CreateGroupOutput where
  resp : ApiResponse
  calls : List LibCall
deriving Repr

/-- The `catch` block of `/api/create-group`:
`error.message || 'Failed to create group'` with status 500. -/
def createCatch (msg : String) : ApiResponse :=
  { status := 500, success := false,
    error := some (if msg = "" then "Failed to create group" else msg) }

/-- The library-call trace of the Node.js resolution phase: the initial
`connect` followed by one `ImportContacts` per (cleaned) number. -/
def importCalls (l : List String) : List LibCall :=
  LibCall.connect :: l.map (fun p => LibCall.importContacts (cleanPhone p))

/-- The `/api/create-group` handler of the Node.js gateway: connect with the
rehydrated session, resolve each number sequentially, fail with the full
`failedNumbers` list when zero resolved, otherwise create the chat and report
counts (omitting `failedNumbers` when it is empty). -/
def nodeCreateGroup (env : Env) (lib : TgLib) (req : CreateGroupRequest) :
    CreateGroupOutput :=
  match lib.connectResult with
  | .exn msg => ⟨createCatch msg, [.connect]⟩
  | .ok _ =>
    if (resolveLoop lib.importResult req.mobileNumbers).1 = [] then
      ⟨{ status := 400, success := false,
         error := some "No valid Telegram users found for the provided phone numbers",
         failedNumbers := some (resolveLoop lib.importResult req.mobileNumbers).2 },
       importCalls req.mobileNumbers ++ [.disconnect]⟩
    else
      match lib.createChatResult (resolveLoop lib.importResult req.mobileNumbers).1
          req.groupName with
      | .exn msg =>
        ⟨createCatch msg,
         importCalls req.mobileNumbers
           ++ [.createChat (resolveLoop lib.importResult req.mobileNumbers).1
                req.groupName]⟩
      | .ok _ =>
        ⟨{ status := 200, success := true,
           message := some ("Group \"" ++ req.groupName ++ "\" created successfully!"),
           membersAdded := some (resolveLoop lib.importResult req.mobileNumbers).1.length,
           totalRequested := some req.mobileNumbers.length,
           failedNumbers :=
             if (resolveLoop lib.importResult req.mobileNumbers).2 = [] then none
             else some (resolveLoop lib.importResult req.mobileNumbers).2 },
         importCalls req.mobileNumbers
           ++ [.createChat (resolveLoop lib.importResult req.mobileNumbers).1
                req.groupName, .disconnect]⟩

/-! ## Supabase edge function (`create-telegram-group/index.ts`) -/

/-- The parsed request body of the edge function: one of three actions. -/
inductive SupaRequest where
  | sendCode (phoneNumber : String)
  | verifyCode (phoneNumber phoneCodeHash code : String)
  | createGroup (req : CreateGroupRequest)
deriving DecidableEq, Repr

/-- Output of the edge function for one request. -/
structure SupaOutput where
  resp : ApiResponse
  calls : List LibCall
deriving Repr

/-- `Deno.env.get('TELEGRAM_API_ID') || '0'` (an absent or empty variable is
replaced by `'0'`). -/
def supaApiIdStr (env : Env) : String :=
  match env.telegramApiId with
  | none => "0"
  | some s => if s = "" then "0" else s

/-- Whether `parseInt(... || '0')` produced a falsy number (`NaN` or `0`). -/
def supaApiIdFalsy (env : Env) : Bool :=
  match parseIntJS (supaApiIdStr env) with
  | none => true
  | some n => n == 0

/-- Whether `Deno.env.get('TELEGRAM_API_HASH') || ''` is falsy (empty). -/
def supaApiHashFalsy (env : Env) : Bool :=
  env.telegramApiHash.getD "" == ""

/-- The credentials check of the edge function: `!apiId || !apiHash`. -/
def supaCredsMissing (env : Env) : Bool :=
  supaApiIdFalsy env || supaApiHashFalsy env

/-- The dedicated credentials-not-configured failure response of the edge
function (status 500). -/
def credsErrorResponse : ApiResponse :=
  { status := 500, success := false,
    error := some "Telegram API credentials not configured" }

/-- The outer `catch` block of the edge function:
`error instanceof Error ? error.message : 'Unknown error occurred'`. -/
def supaCatch (msg : String) : ApiResponse :=
  { status := 500, success := false,
    error := some (if msg = "" then "Unknown error occurred" else msg) }

/-- Resolution of one phone number in the edge function's `create_group`
branch: no whitespace cleaning, per-number `try`/`catch`, and every user in a
non-empty `result.users` is pushed (with `accessHash || BigInt(0)`), with no
truthiness check on `user.id` and no failed-number bookkeeping. -/
def supaResolveOne (imp : String → JsResult (List TUser)) (p : String) :
    Option InputUser :=
  match imp p with
  | .exn _ => none
  | .ok [] => none
  | .ok (u :: _) => some ⟨u.id, u.accessHash⟩

/-- The sequential resolution loop of the edge function's `create_group`
branch: only the resolved `users` list is accumulated. -/
def supaResolveLoop (imp : String → JsResult (List TUser)) :
    List String → List InputUser
  | [] => []
  | p :: rest =>
    match supaResolveOne imp p with
    | some u => u :: supaResolveLoop imp rest
    | none => supaResolveLoop imp rest

/-- The library-call trace of the edge function's resolution phase: `connect`
followed by one `ImportContacts` per (uncleaned) number. -/
def supaImportCalls (l : List String) : List LibCall :=
  LibCall.connect :: l.map (fun p => LibCall.importContacts p)

/-- The `send_code` branch of the edge function. -/
def supaSendCode (lib : TgLib) (phone : String) : SupaOutput :=
  match lib.connectResult with
  | .exn msg => ⟨supaCatch msg, [.connect]⟩
  | .ok _ =>
    match lib.sendCodeResult phone with
    | .exn msg => ⟨supaCatch msg, [.connect, .sendCode phone]⟩
    | .ok hash =>
      ⟨{ status := 200, success := true, phoneCodeHash := some hash,
         message := some "Verification code sent to your phone" },
       [.connect, .sendCode phone, .disconnect]⟩

/-- The `verify_code` branch of the edge function. -/
def supaVerifyCode (lib : TgLib) (phone hash code : String) : SupaOutput :=
  match lib.connectResult with
  | .exn msg => ⟨supaCatch msg, [.connect]⟩
  | .ok _ =>
    match lib.signInResult phone hash code with
    | .exn msg => ⟨supaCatch msg, [.connect, .signIn phone]⟩
    | .ok _ =>
      ⟨{ status := 200, success := true,
         sessionString := some lib.sessionSave,
         message := some "Authentication successful" },
       [.connect, .signIn phone, .disconnect]⟩

/-- The `create_group` branch of the edge function: connect, resolve each
number (accumulating only successes), fail without any failed-number
reporting when zero resolved, otherwise create the chat and report counts
only. -/
def supaCreateGroup (lib : TgLib) (req : CreateGroupRequest) : SupaOutput :=
  match lib.connectResult with
  | .exn msg => ⟨supaCatch msg, [.connect]⟩
  | .ok _ =>
    if supaResolveLoop lib.importResult req.mobileNumbers = [] then
      ⟨{ status := 400, success := false,
         error := some "No valid Telegram users found for the provided phone numbers" },
       supaImportCalls req.mobileNumbers ++ [.disconnect]⟩
    else
      match lib.createChatResult
          (supaResolveLoop lib.importResult req.mobileNumbers)
          req.groupName with
      | .exn msg =>
        ⟨supaCatch msg,
         supaImportCalls req.mobileNumbers
           ++ [.createChat (supaResolveLoop lib.importResult req.mobileNumbers)
                req.groupName]⟩
      | .ok _ =>
        ⟨{ status := 200, success := true,
           message := some ("Group \"" ++ req.groupName ++ "\" created with "
             ++ toString (supaResolveLoop lib.importResult req.mobileNumbers).length
             ++ " members!"),
           membersAdded :=
             some (supaResolveLoop lib.importResult req.mobileNumbers).length,
           totalRequested := some req.mobileNumbers.length },
         supaImportCalls req.mobileNumbers
           ++ [.createChat (supaResolveLoop lib.importResult req.mobileNumbers)
                req.groupName, .disconnect]⟩

/-- The edge function's request handler: credentials check first, then the
action branches. -/
def supaHandle (env : Env) (lib : TgLib) (body : SupaRequest) : SupaOutput :=
  if supaCredsMissing env then ⟨credsErrorResponse, []⟩
  else
    match body with
    | .sendCode phone => supaSendCode lib phone
    | .verifyCode phone hash code => supaVerifyCode lib phone hash code
    | .createGroup req => supaCreateGroup lib req

/-! ## Concrete fixtures used by witnesses and counterexamples -/

/-- A configuration with both credentials present. -/
def envOk : Env := ⟨some "12345", some "abcdef"⟩

/-- A configuration with both credentials absent. -/
def envMissing : Env := ⟨none, none⟩

/-- A library oracle where every operation succeeds and no number resolves. -/
def libBase : TgLib where
  connectResult := .ok ()
  sendCodeResult := fun _ => .ok "hash1"
  signInResult := fun _ _ _ => .ok ()
  sessionSave := "session1"
  importResult := fun _ => .ok []
  createChatResult := fun _ _ => .ok ()

/-- A library oracle where only `+10000000001` resolves (to user 77 with
access hash 88). -/
def libFirstOnly : TgLib :=
  { libBase with
    importResult := fun p =>
      if p = "+10000000001" then .ok [⟨77, 88⟩] else .ok [] }

/-- A library oracle whose `connect` throws. -/
def libConnFail : TgLib :=
  { libBase with connectResult := .exn "connection failed" }

/-- A library oracle whose sign-in throws a wrong-code error. -/
def libWrongCode : TgLib :=
  { libBase with signInResult := fun _ _ _ => .exn "PHONE_CODE_INVALID" }

/-- A library oracle whose sign-in throws the second-factor error. -/
def libTwoFactor : TgLib :=
  { libBase with signInResult := fun _ _ _ => .exn "SESSION_PASSWORD_NEEDED" }

/-- The create-group request of the spec's concrete test:
`["+10000000001","+10000000002"]`. -/
def reqC2 : CreateGroupRequest :=
  ⟨"sess", "GroupX", ["+10000000001", "+10000000002"], none⟩

/-- A verify-code request presenting a handle. -/
def reqVerify : VerifyRequest :=
  ⟨"+10000000001", "hash1", "12345", some "+10000000001_0"⟩

/-- A registry holding one pending login under the handle
`"+10000000001_0"`, created at time 0. -/
def st0 : Registry :=
  insertEntry emptyRegistry "+10000000001_0" ⟨0, "+10000000001", 0⟩

/-! ## Helper lemmas -/

/-- Every response built by the `/api/verify-code` catch block is a failed
verification. -/
theorem verifyCatch_success (msg : String) : (verifyCatch msg).success = false := by
  unfold verifyCatch
  split <;> rfl

/-- Deleting a key removes it. -/
theorem deleteEntry_self (st : Registry) (cid : String) :
    deleteEntry st cid cid = none := by
  simp [deleteEntry]

/-- A `verify-code` call whose handle is missing from the registry does not
reuse a stored connection. -/
theorem usedStored_of_missing (env : Env) (lib : TgLib) (st : Registry)
    (req : VerifyRequest) (cid : String) (hcid : req.clientId = some cid)
    (hst : st cid = none) :
    (nodeVerifyCode env lib st req).usedStored = false := by
  unfold nodeVerifyCode
  have hlh : lookupHandle st req.clientId = none := by
    rw [hcid]
    exact hst
  rw [hlh]
  cases lib.connectResult with
  | exn msg => rfl
  | ok _ =>
    cases lib.signInResult (cleanPhone req.phoneNumber) req.phoneCodeHash req.code with
    | exn msg => rfl
    | ok _ => rfl

/-- Each requested number lands in exactly one of the two lists of the
Node.js resolution loop. -/
theorem resolveLoop_length (imp : String → JsResult (List TUser))
    (l : List String) :
    (resolveLoop imp l).1.length + (resolveLoop imp l).2.length = l.length := by
  induction l with
  | nil => rfl
  | cons p rest ih =>
    simp only [resolveLoop]
    cases h : resolveOne imp (cleanPhone p) with
    | some u =>
      simp only [h, List.length_cons, List.length]
      omega
    | none =>
      simp only [h, List.length_cons, List.length]
      omega

/-- The failed-number list of the Node.js resolution loop is exactly the
cleaned numbers that do not resolve, in input order. -/
theorem resolveLoop_failed_eq_filter (imp : String → JsResult (List TUser))
    (l : List String) :
    (resolveLoop imp l).2 =
      (l.map cleanPhone).filter (fun c => (resolveOne imp c).isNone) := by
  induction l with
  | nil => rfl
  | cons p rest ih =>
    simp only [resolveLoop]
    cases h : resolveOne imp (cleanPhone p) with
    | some u => simp [h, ih, List.filter_cons]
    | none => simp [h, ih, List.filter_cons]

/-- When no number resolves, the Node.js loop yields no users and fails every
cleaned number. -/
theorem resolveLoop_all_failed (imp : String → JsResult (List TUser))
    (l : List String)
    (h : ∀ p ∈ l, resolveOne imp (cleanPhone p) = none) :
    resolveLoop imp l = ([], l.map cleanPhone) := by
  induction l with
  | nil => rfl
  | cons p rest ih =>
    simp only [resolveLoop]
    rw [h p (List.mem_cons_self p rest),
      ih (fun q hq => h q (List.mem_cons_of_mem p hq))]
    rfl

/-- When no number resolves in the edge-function sense, its loop yields no
users. -/
theorem supaResolveLoop_all_failed (imp : String → JsResult (List TUser))
    (l : List String)
    (h : ∀ p ∈ l, supaResolveOne imp p = none) :
    supaResolveLoop imp l = [] := by
  induction l with
  | nil => rfl
  | cons p rest ih =>
    simp only [supaResolveLoop]
    rw [h p (List.mem_cons_self p rest),
      ih (fun q hq => h q (List.mem_cons_of_mem p hq))]

/-- A `CreateChat` call never occurs in the Node.js resolution trace followed
by the final `disconnect`. -/
theorem createChat_not_mem_importCalls (us : List InputUser) (t : String)
    (l : List String) :
    LibCall.createChat us t ∉ importCalls l ++ [LibCall.disconnect] := by
  simp [importCalls, List.mem_map]

/-- A `CreateChat` call never occurs in the edge-function resolution trace
followed by the final `disconnect`. -/
theorem createChat_not_mem_supaImportCalls (us : List InputUser) (t : String)
    (l : List String) :
    LibCall.createChat us t ∉ supaImportCalls l ++ [LibCall.disconnect] := by
  simp [supaImportCalls, List.mem_map]

/-- With credentials present, the edge function dispatches a `create_group`
body to its `create_group` branch. -/
theorem supaHandle_createGroup (env : Env) (lib : TgLib)
    (req : CreateGroupRequest) (hcm : supaCredsMissing env = false) :
    supaHandle env lib (.createGroup req) = supaCreateGroup lib req := by
  unfold supaHandle
  rw [hcm]
  rfl

/-- An absent credential makes the edge function's credentials check fire. -/
theorem supaCredsMissing_of_absent (env : Env)
    (h : env.telegramApiId = none ∨ env.telegramApiHash = none) :
    supaCredsMissing env = true := by
  rcases h with h | h
  · have : supaApiIdFalsy env = true := by
      unfold supaApiIdFalsy supaApiIdStr
      rw [h]
      rfl
    simp [supaCredsMissing, this]
  · have : supaApiHashFalsy env = true := by
      unfold supaApiHashFalsy
      rw [h]
      rfl
    simp [supaCredsMissing, this]

/-! ## Claim theorems -/

/-- C7: the client-side number parser splits the member blob on newlines and
commas, trims tokens, and drops empty tokens: on
`"+1 111\n+1 222,+1 333"` it yields exactly
`["+1 111", "+1 222", "+1 333"]`; on `""` it yields the empty list, and the
group-creation submit with an empty member blob is rejected locally (no
network request) whatever the group name. -/
theorem client_parser_behaviour :
    splitNumbers "+1 111\n+1 222,+1 333" = ["+1 111", "+1 222", "+1 333"] ∧
    splitNumbers "" = [] ∧
    ∀ groupName : String, handleCreateGroup groupName "" = .rejected := by
  refine ⟨by decide, by decide, fun g => ?_⟩
  unfold handleCreateGroup
  split
  · rfl
  · exact if_pos (by decide)

/-- C8: submitting the group-creation step with an empty or whitespace-only
group name is rejected locally, with no network request issued. -/
theorem empty_group_name_rejected (groupName mobileNumbers : String)
    (h : jsTrim groupName = "") :
    handleCreateGroup groupName mobileNumbers = .rejected := by
  unfold handleCreateGroup
  rw [if_pos h]

/-- Witness for C8 at a whitespace-only group name. -/
theorem empty_group_name_rejected_witness :
    jsTrim "   " = "" ∧ handleCreateGroup "   " "+10000000001" = .rejected :=
  ⟨by decide, empty_group_name_rejected "   " "+10000000001" (by decide)⟩

/-- C9: the optional group image payload is accepted as create-group input
but never applied: two requests differing only in the image payload produce
the same library-call trace and the same response, on both gateways. -/
theorem group_image_never_applied (env : Env) (lib : TgLib)
    (req : CreateGroupRequest) (img₁ img₂ : Option String) :
    nodeCreateGroup env lib { req with groupImageBase64 := img₁ } =
      nodeCreateGroup env lib { req with groupImageBase64 := img₂ } ∧
    supaHandle env lib (.createGroup { req with groupImageBase64 := img₁ }) =
      supaHandle env lib (.createGroup { req with groupImageBase64 := img₂ }) := by
  cases req
  exact ⟨rfl, rfl⟩

/-- C3: a handle consumed by a successful verify-code call is deleted from
the registry, and a second verify-code call presenting the same handle does
not reuse the stored connection (it opens fresh or fails). -/
theorem verify_success_consumes_handle (env₁ env₂ : Env) (lib₁ lib₂ : TgLib)
    (st : Registry) (req₁ req₂ : VerifyRequest) (cid : String)
    (hcid : req₁.clientId = some cid)
    (hsucc : (nodeVerifyCode env₁ lib₁ st req₁).resp.success = true) :
    (nodeVerifyCode env₁ lib₁ st req₁).registry cid = none ∧
    (req₂.clientId = some cid →
      (nodeVerifyCode env₂ lib₂ ((nodeVerifyCode env₁ lib₁ st req₁).registry)
        req₂).usedStored = false) := by
  have key : (nodeVerifyCode env₁ lib₁ st req₁).registry cid = none := by
    unfold nodeVerifyCode at hsucc ⊢
    cases hst : lookupHandle st req₁.clientId with
    | some e =>
      rw [hst] at hsucc
      cases hsi : lib₁.signInResult (cleanPhone req₁.phoneNumber)
          req₁.phoneCodeHash req₁.code with
      | exn m =>
        rw [hsi] at hsucc
        simp [verifyCatch_success] at hsucc
      | ok _ => simp [deleteIfPresent, hcid, deleteEntry_self]
    | none =>
      rw [hst] at hsucc
      cases hc : lib₁.connectResult with
      | exn m =>
        rw [hc] at hsucc
        simp [verifyCatch_success] at hsucc
      | ok _ =>
        rw [hc] at hsucc
        cases hsi : lib₁.signInResult (cleanPhone req₁.phoneNumber)
            req₁.phoneCodeHash req₁.code with
        | exn m =>
          rw [hsi] at hsucc
          simp [verifyCatch_success] at hsucc
        | ok _ => simp [deleteIfPresent, hcid, deleteEntry_self]
  exact ⟨key, fun h₂ => usedStored_of_missing env₂ lib₂ _ req₂ cid h₂ key⟩

/-- Witness for C3: a successful verify on a stored handle deletes it, and a
repeat call with the same handle does not reuse the stored connection. -/
theorem verify_success_consumes_handle_witness :
    (nodeVerifyCode envOk libBase st0 reqVerify).registry "+10000000001_0" = none ∧
    (nodeVerifyCode envOk libBase
      ((nodeVerifyCode envOk libBase st0 reqVerify).registry)
      reqVerify).usedStored = false := by
  have h := verify_success_consumes_handle envOk envOk libBase libBase st0
    reqVerify reqVerify "+10000000001_0" rfl (by decide)
  exact ⟨h.1, h.2 rfl⟩

/-- C4: each pending login created by a successful send-code request carries
an eviction timer due `evictionDelayMs` (10 minutes) after creation; once
due, the timer force-closes the stored connection and deletes the entry, so a
verify-code request arriving after the eviction window — whatever its code —
does not use the stored connection. -/
theorem pending_login_evicted_after_timeout (env env' : Env)
    (lib lib' : TgLib) (st : Registry) (now now' clientRef : Nat)
    (phoneNumber : String) (req : VerifyRequest) (cid : String)
    (hsucc : (nodeSendCode env lib st now clientRef phoneNumber).resp.success = true)
    (hcid : (nodeSendCode env lib st now clientRef phoneNumber).resp.clientId = some cid)
    (hlate : now + evictionDelayMs ≤ now') :
    (nodeSendCode env lib st now clientRef phoneNumber).timerAt =
      some (cid, now + evictionDelayMs) ∧
    timerCloses now' (nodeSendCode env lib st now clientRef phoneNumber).registry
      cid = true ∧
    processTimers now' (nodeSendCode env lib st now clientRef phoneNumber).registry
      cid = none ∧
    (req.clientId = some cid →
      (nodeVerifyCodeAt env' lib' now'
        (nodeSendCode env lib st now clientRef phoneNumber).registry
        req).usedStored = false) := by
  unfold nodeSendCode at hsucc hcid ⊢
  cases hc : lib.connectResult with
  | exn m =>
    rw [hc] at hsucc
    simp [sendCodeCatch] at hsucc
  | ok _ =>
    rw [hc] at hsucc hcid
    cases hs : lib.sendCodeResult (cleanPhone phoneNumber) with
    | exn m =>
      rw [hs] at hsucc
      simp [sendCodeCatch] at hsucc
    | ok hash =>
      rw [hs] at hcid
      have hcideq : freshClientId phoneNumber now = cid := Option.some.inj hcid
      have hreg :
          insertEntry st (freshClientId phoneNumber now)
            ⟨clientRef, cleanPhone phoneNumber, now⟩ cid =
            some ⟨clientRef, cleanPhone phoneNumber, now⟩ := by
        rw [← hcideq]
        simp [insertEntry]
      have hdue :
          timerDue now'
            (⟨clientRef, cleanPhone phoneNumber, now⟩ : PendingClient) = true := by
        simp only [timerDue, decide_eq_true_eq]
        exact hlate
      have h3 :
          processTimers now'
            (insertEntry st (freshClientId phoneNumber now)
              ⟨clientRef, cleanPhone phoneNumber, now⟩) cid = none := by
        simp only [processTimers, hreg]
        simp [hdue]
      refine ⟨?_, ?_, h3, fun hreq => ?_⟩
      · show some (freshClientId phoneNumber now, now + evictionDelayMs) =
          some (cid, now + evictionDelayMs)
        rw [hcideq]
      · show timerCloses now'
          (insertEntry st (freshClientId phoneNumber now)
            ⟨clientRef, cleanPhone phoneNumber, now⟩) cid = true
        unfold timerCloses
        rw [hreg]
        exact hdue
      · exact usedStored_of_missing env' lib' _ req cid hreq h3

/-- Witness for C4: a pending login created at time 0 is evicted by time
600000 and a verify-code call at that time falls back to a fresh
connection. -/
theorem pending_login_evicted_after_timeout_witness :
    (nodeSendCode envOk libBase emptyRegistry 0 5 "+10000000001").timerAt =
      some ("+10000000001_0", 600000) ∧
    timerCloses 600000
      (nodeSendCode envOk libBase emptyRegistry 0 5 "+10000000001").registry
      "+10000000001_0" = true ∧
    processTimers 600000
      (nodeSendCode envOk libBase emptyRegistry 0 5 "+10000000001").registry
      "+10000000001_0" = none ∧
    (nodeVerifyCodeAt envOk libBase 600000
      (nodeSendCode envOk libBase emptyRegistry 0 5 "+10000000001").registry
      reqVerify).usedStored = false := by
  have h := pending_login_evicted_after_timeout envOk envOk libBase libBase
    emptyRegistry 0 600000 5 "+10000000001" reqVerify "+10000000001_0"
    (by decide) (by decide) (by decide)
  exact ⟨h.1, h.2.1, h.2.2.1, h.2.2.2 rfl⟩

/-- C6: every failing verify-code response is produced by the handler's catch
block; a catch-block response is a failed verification, carries
`requiresPassword: true` exactly when the thrown error message signals the
second authentication factor (contains `SESSION_PASSWORD_NEEDED`), and
carries no `requiresPassword` key for every other failure. -/
theorem verify_failure_flags_second_factor (env : Env) (lib : TgLib)
    (st : Registry) (req : VerifyRequest) :
    ((nodeVerifyCode env lib st req).resp.success = false →
      ∃ msg, (nodeVerifyCode env lib st req).resp = verifyCatch msg) ∧
    ∀ msg : String,
      (verifyCatch msg).success = false ∧
      ((verifyCatch msg).requiresPassword = some true ↔
        containsSubstr msg "SESSION_PASSWORD_NEEDED" = true) ∧
      (containsSubstr msg "SESSION_PASSWORD_NEEDED" = false →
        (verifyCatch msg).requiresPassword = none) := by
  constructor
  · intro hfail
    unfold nodeVerifyCode at hfail ⊢
    cases hst : lookupHandle st req.clientId with
    | some e =>
      rw [hst] at hfail
      cases hsi : lib.signInResult (cleanPhone req.phoneNumber)
          req.phoneCodeHash req.code with
      | exn m => exact ⟨m, rfl⟩
      | ok _ =>
        rw [hsi] at hfail
        simp [verifySuccess] at hfail
    | none =>
      rw [hst] at hfail
      cases hc : lib.connectResult with
      | exn m => exact ⟨m, rfl⟩
      | ok _ =>
        rw [hc] at hfail
        cases hsi : lib.signInResult (cleanPhone req.phoneNumber)
            req.phoneCodeHash req.code with
        | exn m => exact ⟨m, rfl⟩
        | ok _ =>
          rw [hsi] at hfail
          simp [verifySuccess] at hfail
  · intro msg
    unfold verifyCatch
    cases h : containsSubstr msg "SESSION_PASSWORD_NEEDED" with
    | true => simp [h]
    | false => simp [h]

/-- Witness for C6: a wrong code yields a catch-block response; the
second-factor message sets the flag, a wrong-code message does not. -/
theorem verify_failure_flags_second_factor_witness :
    (∃ msg, (nodeVerifyCode envOk libWrongCode emptyRegistry reqVerify).resp =
      verifyCatch msg) ∧
    (verifyCatch "SESSION_PASSWORD_NEEDED").requiresPassword = some true ∧
    (verifyCatch "PHONE_CODE_INVALID").requiresPassword = none := by
  refine ⟨(verify_failure_flags_second_factor envOk libWrongCode emptyRegistry
      reqVerify).1 (by decide), ?_, ?_⟩
  · exact ((verify_failure_flags_second_factor envOk libWrongCode emptyRegistry
      reqVerify).2 "SESSION_PASSWORD_NEEDED").2.1.mpr (by decide)
  · exact ((verify_failure_flags_second_factor envOk libWrongCode emptyRegistry
      reqVerify).2 "PHONE_CODE_INVALID").2.2 (by decide)

/-- C5 counterexample: with both credentials absent from the configuration,
the Node.js gateway's send-code handler still calls into the wrapped library
(`connect`) and returns the library failure, not a dedicated
credentials-not-configured error — so the claim is false for the Node.js
gateway. -/
theorem credentials_check_counterexample :
    envMissing.telegramApiId = none ∧
    envMissing.telegramApiHash = none ∧
    LibCall.connect ∈
      (nodeSendCode envMissing libConnFail emptyRegistry 0 0 "+10000000001").calls ∧
    (nodeSendCode envMissing libConnFail emptyRegistry 0 0 "+10000000001").resp.error
      = some "connection failed" ∧
    (nodeSendCode envMissing libConnFail emptyRegistry 0 0 "+10000000001").resp
      ≠ credsErrorResponse := by
  refine ⟨rfl, rfl, ?_, by decide, by decide⟩
  decide

/-- C5 (amended): the Supabase edge function fails fast with the dedicated
credentials error and an empty library-call trace whenever either credential
is absent, for all three operations; the Node.js gateway performs no such
check — its send-code handler calls the library (`connect`) under every
configuration. -/
theorem credentials_check_divergence :
    (∀ (env : Env) (lib : TgLib) (body : SupaRequest),
      env.telegramApiId = none ∨ env.telegramApiHash = none →
      (supaHandle env lib body).resp = credsErrorResponse ∧
      (supaHandle env lib body).calls = []) ∧
    (∀ (env : Env) (lib : TgLib) (st : Registry) (now clientRef : Nat)
      (phone : String),
      LibCall.connect ∈ (nodeSendCode env lib st now clientRef phone).calls) := by
  constructor
  · intro env lib body h
    have hm := supaCredsMissing_of_absent env h
    unfold supaHandle
    rw [hm]
    exact ⟨rfl, rfl⟩
  · intro env lib st now clientRef phone
    unfold nodeSendCode
    cases lib.connectResult with
    | exn m => simp
    | ok _ =>
      cases lib.sendCodeResult (cleanPhone phone) with
      | exn m => simp
      | ok hash => simp

/-- Witness for C5 (amended) at a concrete absent configuration. -/
theorem credentials_check_divergence_witness :
    (supaHandle envMissing libBase (.sendCode "+10000000001")).resp =
      credsErrorResponse ∧
    LibCall.connect ∈
      (nodeSendCode envMissing libBase emptyRegistry 0 0 "+10000000001").calls :=
  ⟨(credentials_check_divergence.1 envMissing libBase (.sendCode "+10000000001")
      (Or.inl rfl)).1,
   credentials_check_divergence.2 envMissing libBase emptyRegistry 0 0
     "+10000000001"⟩

/-- C1 counterexample: at a concrete request where zero numbers resolve, the
Supabase gateway's response is a failure but carries no `failedNumbers` key
at all, so it does not report the list of numbers that failed resolution. -/
theorem create_group_zero_resolution_counterexample :
    (supaHandle envOk libBase (.createGroup reqC2)).resp.success = false ∧
    (supaHandle envOk libBase (.createGroup reqC2)).resp.failedNumbers = none := by
  constructor <;> decide

/-- C1 (amended): when zero of the supplied numbers resolve, both gateways
return `success:false` and never call `CreateChat`; the Node.js gateway
reports the full list of (whitespace-stripped) numbers that failed
resolution, while the Supabase gateway omits the list. -/
theorem create_group_zero_resolution (env : Env) (lib : TgLib)
    (req : CreateGroupRequest)
    (hconn : lib.connectResult = .ok ())
    (hnode : ∀ p ∈ req.mobileNumbers,
      resolveOne lib.importResult (cleanPhone p) = none)
    (hsupa : ∀ p ∈ req.mobileNumbers, supaResolveOne lib.importResult p = none) :
    ((nodeCreateGroup env lib req).resp.success = false ∧
     (nodeCreateGroup env lib req).resp.failedNumbers =
       some (req.mobileNumbers.map cleanPhone) ∧
     ∀ us t, LibCall.createChat us t ∉ (nodeCreateGroup env lib req).calls) ∧
    ((supaHandle env lib (.createGroup req)).resp.success = false ∧
     (supaHandle env lib (.createGroup req)).resp.failedNumbers = none ∧
     ∀ us t, LibCall.createChat us t ∉
       (supaHandle env lib (.createGroup req)).calls) := by
  have hloop := resolveLoop_all_failed lib.importResult req.mobileNumbers hnode
  have hsloop := supaResolveLoop_all_failed lib.importResult req.mobileNumbers hsupa
  constructor
  · unfold nodeCreateGroup
    rw [hconn, hloop]
    simp only [List.nil_eq, if_pos rfl]
    exact ⟨rfl, rfl, fun us t => createChat_not_mem_importCalls us t req.mobileNumbers⟩
  · cases hcm : supaCredsMissing env with
    | true =>
      unfold supaHandle
      rw [hcm]
      exact ⟨rfl, rfl, fun us t => by simp⟩
    | false =>
      rw [supaHandle_createGroup env lib req hcm]
      unfold supaCreateGroup
      rw [hconn, hsloop]
      simp only [if_pos rfl]
      exact ⟨rfl, rfl,
        fun us t => createChat_not_mem_supaImportCalls us t req.mobileNumbers⟩

/-- Witness for C1 (amended) at the concrete two-number request where
nothing resolves. -/
theorem create_group_zero_resolution_witness :
    (nodeCreateGroup envOk libBase reqC2).resp.success = false ∧
    (nodeCreateGroup envOk libBase reqC2).resp.failedNumbers =
      some ["+10000000001", "+10000000002"] := by
  have h := create_group_zero_resolution envOk libBase reqC2 rfl
    (by decide) (by decide)
  exact ⟨h.1.1, h.1.2.1.trans (by decide)⟩

/-- C2 counterexample: at the claim's own input
`["+10000000001","+10000000002"]` with only the first number resolving, the
Supabase gateway returns `success:true` with the right counts but no
`failedNumbers` key, so the claimed response
`failedNumbers:["+10000000002"]` does not hold there. -/
theorem create_group_partial_counterexample :
    (supaHandle envOk libFirstOnly (.createGroup reqC2)).resp.success = true ∧
    (supaHandle envOk libFirstOnly (.createGroup reqC2)).resp.membersAdded = some 1 ∧
    (supaHandle envOk libFirstOnly (.createGroup reqC2)).resp.totalRequested = some 2 ∧
    (supaHandle envOk libFirstOnly (.createGroup reqC2)).resp.failedNumbers = none := by
  refine ⟨by decide, by decide, by decide, by decide⟩

/-- C2 (amended): on the Node.js gateway, a create-group request where some
(but possibly not all) numbers resolve and whose `CreateChat` call succeeds
returns `success:true` with `membersAdded` the number of resolved members,
`totalRequested` the length of the submitted list, and `failedNumbers`
exactly the (whitespace-stripped) numbers that did not resolve (the key being
omitted when none failed); the Supabase gateway returns the same counts but
never reports `failedNumbers`. -/
theorem create_group_partial_success (env : Env) (lib : TgLib)
    (req : CreateGroupRequest)
    (hconn : lib.connectResult = .ok ())
    (hsome : (resolveLoop lib.importResult req.mobileNumbers).1 ≠ [])
    (hchat : lib.createChatResult
      (resolveLoop lib.importResult req.mobileNumbers).1 req.groupName = .ok ()) :
    (nodeCreateGroup env lib req).resp.success = true ∧
    (nodeCreateGroup env lib req).resp.membersAdded =
      some (resolveLoop lib.importResult req.mobileNumbers).1.length ∧
    (nodeCreateGroup env lib req).resp.totalRequested =
      some req.mobileNumbers.length ∧
    (nodeCreateGroup env lib req).resp.failedNumbers =
      (if (resolveLoop lib.importResult req.mobileNumbers).2 = [] then none
       else some (resolveLoop lib.importResult req.mobileNumbers).2) ∧
    (resolveLoop lib.importResult req.mobileNumbers).2 =
      (req.mobileNumbers.map cleanPhone).filter
        (fun c => (resolveOne lib.importResult c).isNone) := by
  unfold nodeCreateGroup
  rw [hconn]
  rw [if_neg hsome, hchat]
  exact ⟨rfl, rfl, rfl, rfl,
    resolveLoop_failed_eq_filter lib.importResult req.mobileNumbers⟩

/-- Witness for C2 (amended): the Node.js gateway at the claim's concrete
input produces `success:true, membersAdded:1, totalRequested:2,
failedNumbers:["+10000000002"]`. -/
theorem create_group_partial_success_witness :
    (nodeCreateGroup envOk libFirstOnly reqC2).resp.success = true ∧
    (nodeCreateGroup envOk libFirstOnly reqC2).resp.membersAdded = some 1 ∧
    (nodeCreateGroup envOk libFirstOnly reqC2).resp.totalRequested = some 2 ∧
    (nodeCreateGroup envOk libFirstOnly reqC2).resp.failedNumbers =
      some ["+10000000002"] := by
  have h := create_group_partial_success envOk libFirstOnly reqC2 rfl
    (by decide) (by decide)
  exact ⟨h.1, h.2.1.trans (by decide), h.2.2.1.trans (by decide),
    h.2.2.2.1.trans (by decide)⟩

/-- C10: on the Node.js gateway, every create-group response from the
resolution path (success, or the zero-resolution failure) attributes each
requested number to exactly one side: the reported `membersAdded` count (0
when absent) plus the length of the reported `failedNumbers` list (empty
when absent) equals the length of the submitted number list. -/
theorem create_group_member_partition (env : Env) (lib : TgLib)
    (req : CreateGroupRequest)
    (hconn : lib.connectResult = .ok ())
    (hpath : (resolveLoop lib.importResult req.mobileNumbers).1 = [] ∨
      lib.createChatResult (resolveLoop lib.importResult req.mobileNumbers).1
        req.groupName = .ok ()) :
    ((nodeCreateGroup env lib req).resp.membersAdded.getD 0) +
      ((nodeCreateGroup env lib req).resp.failedNumbers.getD []).length =
      req.mobileNumbers.length := by
  have hlen := resolveLoop_length lib.importResult req.mobileNumbers
  unfold nodeCreateGroup
  rw [hconn]
  cases hz : decide ((resolveLoop lib.importResult req.mobileNumbers).1 = []) with
  | true =>
    have hz' := of_decide_eq_true hz
    rw [if_pos hz']
    simp only [Option.getD_none, Option.getD_some, Nat.zero_add]
    rw [hz'] at hlen
    simpa using hlen
  | false =>
    have hz' := of_decide_eq_false hz
    rw [if_neg hz']
    rcases hpath with hp | hp
    · exact absurd hp hz'
    · rw [hp]
      simp only [Option.getD_some]
      cases hf : decide ((resolveLoop lib.importResult req.mobileNumbers).2 = []) with
      | true =>
        have hf' := of_decide_eq_true hf
        rw [if_pos hf']
        simp only [Option.getD_none, List.length_nil, Nat.add_zero]
        rw [hf'] at hlen
        simpa using hlen
      | false =>
        have hf' := of_decide_eq_false hf
        rw [if_neg hf']
        simpa using hlen

/-- Witness for C10 at the concrete partial-resolution input: `1 + 1 = 2`. -/
theorem create_group_member_partition_witness :
    ((nodeCreateGroup envOk libFirstOnly reqC2).resp.membersAdded.getD 0) +
      ((nodeCreateGroup envOk libFirstOnly reqC2).resp.failedNumbers.getD []).length
      = 2 :=
  create_group_member_partition envOk libFirstOnly reqC2 rfl (Or.inr rfl)

end GroupGenie
